import Mathlib

/-!
Verification development for the autonomous research assistant's orchestration
core (backend/core/workflow.py, backend/agents/*.py, backend/tools/search_tools.py).

The Python code is shallowly embedded: each stage function of the pipeline is a
Lean function over an explicit `ResearchState`; external collaborators (LLM
judgment calls, search providers, page fetching, the randomized shuffle) are
parameters, with a fallible call modelled as an `Except String` value; Python
exceptions that escape a function are modelled by the function returning
`Except.error`.  Python strings are modelled as `String` (sequences of
characters), `str.lower` as an ASCII lowercase map (all keywords involved are
ASCII), and Python truthiness of an optional string (`if not state.summary`)
is modelled explicitly.
-/

/-- ASCII lowercase of one character, modelling `str.lower` on the ASCII
keywords the director's parser matches against. -/
def lowerChar (c : Char) : Char :=
  if 'A' ≤ c ∧ c ≤ 'Z' then Char.ofNat (c.toNat + 32) else c

/-- ASCII lowercase of a string (model of Python `str.lower()`). -/
def lowerStr (s : String) : String :=
  String.mk (s.toList.map lowerChar)

/-- Model of Python's substring test `needle in haystack`. -/
def containsSubstr (haystack needle : String) : Bool :=
  (List.range (haystack.toList.length + 1)).any
    (fun i => ((haystack.toList.drop i).take needle.toList.length) == needle.toList)

/-- Model of Python `len` on a string: the number of characters. -/
def pyLen (s : String) : Nat := s.toList.length

/-- Model of Python slicing `s[:n]`: the first `n` characters. -/
def pySlice (s : String) (n : Nat) : String := String.mk (s.toList.take n)

/-- Model of Python `a or b` on strings: `a` when non-empty, else `b`. -/
def pyOr (a b : String) : String := if a.isEmpty then b else a

/-- Python truthiness test `not x` for an optional string: true when the
value is absent (None) or the empty string. -/
def pyFalsy (o : Option String) : Bool :=
  match o with
  | none => true
  | some s => s.isEmpty

/-- Model of Python `str.strip()`: drop leading and trailing whitespace. -/
def pyStrip (s : String) : String :=
  String.mk (((s.toList.dropWhile Char.isWhitespace).reverse.dropWhile Char.isWhitespace).reverse)

/-- One entry of a search provider's result list, as consumed by the collector
(`result.get("url", "")`, `result.get("title", "")`); an absent key is the
empty string.  Modelled from the spec: the `SearchResult` record class is
imported from `backend/models/research_state.py` but not defined there; the
spec gives `results: sequence of {url, title, snippet, ...} records`. -/
structure RawResult where
  url : String
  title : String
  snippet : String
deriving DecidableEq, Repr

/-- One per-query search record.  Modelled from the spec:
`SearchResult{query: string, results: ...}` (the class is imported but absent
from the source model module); the constructor call in
`SearchAgent.search` passes exactly `query` and `results`. -/
structure SearchResult where
  query : String
  results : List RawResult
deriving DecidableEq, Repr

/-- One collected page.  Modelled from the spec (`CollectedItem{url, title,
content, publishedDate?, collectedAt}`) and from the constructor call in
`CollectorAgent.collect_data`, which passes `url`, `title`, `content`, `date`
and a metadata dict holding the collection timestamp. -/
structure CollectedData where
  url : String
  title : String
  content : String
  date : Option String
  collected_at : String
deriving DecidableEq, Repr

/-- The source record nested in a verified item, as constructed in
`VerifierAgent.verify_data` (`Source(title=..., url=..., content=...,
date=..., reliability=...)`).  Reliability scores are modelled as rationals;
no claim depends on floating-point semantics. -/
structure Source where
  title : String
  url : String
  content : String
  date : Option String
  reliability : ℚ
deriving DecidableEq, Repr

/-- One verified item.  Modelled from the spec (`VerifiedItem`) and from the
constructor call in `VerifierAgent.verify_data`, which passes exactly
`source`, `verified_content`, `reliability_score` and `verification_notes`;
in particular the record has no `url` attribute of its own. -/
structure VerifiedData where
  source : Source
  verified_content : String
  reliability_score : ℚ
  verification_notes : String
deriving DecidableEq, Repr

/-- The research state threaded through the pipeline.  Modelled from the spec
(§3) and from the fields the agents read and write (`state.sub_queries`,
`state.search_results`, `state.collected_data`, `state.verified_data`,
`state.summary`, `state.report`, `state.status`); the class imported by the
agents is not the one defined in `backend/models/research_state.py`. -/
structure ResearchState where
  query : String
  sub_queries : List String
  search_results : List SearchResult
  collected_data : List CollectedData
  verified_data : List VerifiedData
  summary : Option String
  report : Option String
  status : String
deriving DecidableEq, Repr

/-- Embedding of `DirectorAgent.initialize_research`: a fresh state with only
the query and `status="initialized"` set. -/
def initialize_research (query : String) : ResearchState :=
  { query := query
    sub_queries := []
    search_results := []
    collected_data := []
    verified_data := []
    summary := none
    report := none
    status := "initialized" }

/-- Embedding of the parsing tail of `DirectorAgent.next_step`: the advisory
response content from the external judgment call is lowercased and matched by
substring against fixed keywords in order; note the first keyword is the
misspelling "generate_subqeries" exactly as in the source, and the final
branch defaults to "search". -/
def next_step (advisory : String) : String × String :=
  let content := lowerStr advisory
  if containsSubstr content "generate_subqeries" then
    ("generate_subqueries", "Generating focused sub-queries")
  else if containsSubstr content "search" then
    ("search", "Searching for information")
  else if containsSubstr content "collect" then
    ("collect", "Collecting data from search results")
  else if containsSubstr content "verify" then
    ("verify", "Verifying collected data")
  else if containsSubstr content "summarize" then
    ("summarize", "Creating summary of findings")
  else if containsSubstr content "generate_report" then
    ("generate_report", "Generating final research report")
  else
    ("search", "Continuing with information search")

/-- The fixed closed action set of the director, excluding "complete". -/
def stageActions : List String :=
  ["generate_subqueries", "search", "collect", "verify", "summarize", "generate_report"]

/-- C9: for every advisory response string, the director's parser returns one
of the six stage actions and never the action "complete". -/
theorem next_step_total (advisory : String) :
    (next_step advisory).1 ∈ stageActions ∧ (next_step advisory).1 ≠ "complete" := by
  unfold next_step stageActions
  dsimp only
  split_ifs <;> simp

/-- C3 counterexample evaluation: the advisory string "generate_subqueries"
(the action name the director's own prompt instructs the judgment source to
answer with) is not matched by the parser's misspelled first keyword and
falls through to the default "search"; the misspelling "generate_subqeries"
is what actually triggers the first branch. -/
theorem next_step_typo_bug :
    next_step "generate_subqueries" = ("search", "Continuing with information search") ∧
    next_step "generate_subqeries" = ("generate_subqueries", "Generating focused sub-queries") := by
  constructor <;> decide

/-- Embedding of the truncation in `CollectorAgent._extract_relevant_content`
(`if len(content) > 15000: content = content[:15000]`): the text actually
submitted to the extraction call. -/
def collect_submitted (content : String) : String :=
  if pyLen content > 15000 then pySlice content 15000 else content

/-- Embedding of the truncation in `VerifierAgent.verify_content`
(`if len(content) > 10000: content = content[:10000]`): the text actually
submitted to the verification call. -/
def verify_submitted (content : String) : String :=
  if pyLen content > 10000 then pySlice content 10000 else content

/-- Embedding of `CollectorAgent._extract_relevant_content`: truncate the
content, submit it to the external extraction call (the collaborator is the
`oracle` parameter, receiving the submitted text), return the stripped
response, and on any failure of the call return the fixed fallback string
(its own try/except). -/
def extract_relevant_content (oracle : String → Except String String)
    (content : String) : String :=
  match oracle (collect_submitted content) with
  | .ok r => pyStrip r
  | .error _ => "Failed to extract content from the page."

/-- Embedding of `VerifierAgent.verify_content`: truncate the content, submit
it to the external judgment call (the `oracle` parameter receives the query
and the submitted content and models the call together with the regex
extraction of the score/content/notes triple from the response), and on any
failure return the fallback `(0.0, "", "Verification failed: ...")` (its own
try/except). -/
def verify_content (oracle : String → String → Except String (ℚ × String × String))
    (query content : String) : ℚ × String × String :=
  match oracle query (verify_submitted content) with
  | .ok t => t
  | .error e => (0, "", "Verification failed: " ++ e)

/-- C10: the text each stage submits to its external judgment call is a
prefix of the original content of at most the fixed character budget (15000
for the collector's extraction, 10000 for the verifier), content beyond the
budget being cut; and the stage functions submit exactly that truncation, as
exhibited by instantiating the collaborator with an oracle that echoes its
input. -/
theorem submitted_truncation (c q : String) :
    (collect_submitted c).toList <+: c.toList ∧
    (collect_submitted c).toList.length ≤ 15000 ∧
    (pyLen c > 15000 → collect_submitted c = pySlice c 15000) ∧
    (verify_submitted c).toList <+: c.toList ∧
    (verify_submitted c).toList.length ≤ 10000 ∧
    (pyLen c > 10000 → verify_submitted c = pySlice c 10000) ∧
    extract_relevant_content (fun s => .ok s) c = pyStrip (collect_submitted c) ∧
    verify_content (fun _ s => .ok (1, s, "")) q c = (1, verify_submitted c, "") := by
  refine ⟨?_, ?_, ?_, ?_, ?_, ?_, rfl, rfl⟩
  · unfold collect_submitted pySlice pyLen
    split
    · exact List.take_prefix _ _
    · exact List.prefix_rfl
  · unfold collect_submitted pySlice pyLen
    split
    · simp
    · omega
  · intro h
    unfold collect_submitted
    simp [h]
  · unfold verify_submitted pySlice pyLen
    split
    · exact List.take_prefix _ _
    · exact List.prefix_rfl
  · unfold verify_submitted pySlice pyLen
    split
    · simp
    · omega
  · intro h
    unfold verify_submitted
    simp [h]

/-- One raw entry of a SerpAPI organic result, as read by
`SearchTools.google_search` via `result.get(key, default)`: each key may be
absent. -/
structure GoogleRaw where
  title : Option String
  link : Option String
  snippet : Option String
  position : Option Nat
deriving DecidableEq, Repr

/-- One mapped entry returned by `SearchTools.google_search`. -/
structure GoogleResultOut where
  title : String
  link : String
  snippet : String
  position : Nat
deriving DecidableEq, Repr

/-- One raw entry of a SerpAPI news result, as read by
`SearchTools.news_search`. -/
structure NewsRaw where
  title : Option String
  link : Option String
  source : Option String
  date : Option String
  snippet : Option String
deriving DecidableEq, Repr

/-- One mapped entry returned by `SearchTools.news_search`. -/
structure NewsResultOut where
  title : String
  link : String
  source : String
  date : String
  snippet : String
deriving DecidableEq, Repr

/-- One raw entry of a SerpAPI scholar result, as read by
`SearchTools.academic_search` (`cited_by_total` models
`result.get("cited_by", {}).get("total", 0)`). -/
structure ScholarRaw where
  title : Option String
  link : Option String
  authors : Option (List String)
  snippet : Option String
  year : Option String
  cited_by_total : Option Nat
deriving DecidableEq, Repr

/-- One mapped entry returned by `SearchTools.academic_search`. -/
structure ScholarResultOut where
  title : String
  link : String
  authors : List String
  abstract : String
  year : String
  citations : Nat
deriving DecidableEq, Repr

/-- Embedding of `SearchTools.google_search`.  The underlying SerpAPI call
(`GoogleSearch(params)` / `get_dict()`) is the `call` parameter: `.error`
models a raised exception (caught by the method's try/except, yielding `[]`),
`.ok none` models a response dict without the "organic_results" key (early
return of `[]`), and `.ok (some rs)` the result list, mapped with defaulting
key access. -/
def google_search (call : Except String (Option (List GoogleRaw))) : List GoogleResultOut :=
  match call with
  | .error _ => []
  | .ok none => []
  | .ok (some rs) =>
    rs.map fun r =>
      { title := r.title.getD ""
        link := r.link.getD ""
        snippet := r.snippet.getD ""
        position := r.position.getD 0 }

/-- Embedding of `SearchTools.news_search` (key "news_results"), with the
same failure translation as `google_search`. -/
def news_search (call : Except String (Option (List NewsRaw))) : List NewsResultOut :=
  match call with
  | .error _ => []
  | .ok none => []
  | .ok (some rs) =>
    rs.map fun r =>
      { title := r.title.getD ""
        link := r.link.getD ""
        source := r.source.getD ""
        date := r.date.getD ""
        snippet := r.snippet.getD "" }

/-- Embedding of `SearchTools.academic_search` (key "organic_results" of the
google_scholar engine), with the same failure translation. -/
def academic_search (call : Except String (Option (List ScholarRaw))) : List ScholarResultOut :=
  match call with
  | .error _ => []
  | .ok none => []
  | .ok (some rs) =>
    rs.map fun r =>
      { title := r.title.getD ""
        link := r.link.getD ""
        authors := r.authors.getD []
        abstract := r.snippet.getD ""
        year := r.year.getD ""
        citations := r.cited_by_total.getD 0 }

/-- C8: each search provider method catches any failure of the underlying
call and translates it to the empty result list, likewise a response missing
the expected results key; by their types the three methods always return a
plain (possibly empty) list and never propagate an exception. -/
theorem search_provider_never_raises (e : String) :
    google_search (.error e) = [] ∧
    news_search (.error e) = [] ∧
    academic_search (.error e) = [] ∧
    google_search (.ok none) = [] ∧
    news_search (.ok none) = [] ∧
    academic_search (.ok none) = [] := by
  exact ⟨rfl, rfl, rfl, rfl, rfl, rfl⟩

/-- An element of the `queries_to_search` list built by `SearchAgent.search`:
the sub-query branch appends bare strings, while the main-query branch
appends the pair `("main", state.query)`. -/
inductive QueryEntry where
  | plain (s : String)
  | tagged (tag q : String)
deriving DecidableEq, Repr

/-- Model of the tuple unpacking `query_type, query_text = entry` performed by
the loop header `for query_type, query_text in queries_to_search`: a pair
unpacks to its components; a bare string unpacks only when it has exactly two
characters (each becoming a one-character string), otherwise Python raises
`ValueError` at the loop header, outside the per-query try/except. -/
def unpack2 : QueryEntry → Except String (String × String)
  | .tagged t q => .ok (t, q)
  | .plain s =>
    match s.toList with
    | [a, b] => .ok (String.mk [a], String.mk [b])
    | _ => .error "ValueError: not enough values to unpack"

/-- The `queries_to_search` list of `SearchAgent.search`: with sub-queries
present, every sub-query lacking a search result, as a bare string; otherwise
the main query as a tagged pair when it lacks a result. -/
def queries_to_search (state : ResearchState) : List QueryEntry :=
  if state.sub_queries ≠ [] then
    (state.sub_queries.filter
      (fun sq => ¬ state.search_results.any (fun r => r.query == sq))).map .plain
  else if state.search_results.any (fun r => r.query == state.query) then []
  else [.tagged "main" state.query]

/-- The per-entry loop of `SearchAgent.search`: unpack the entry (uncaught on
failure), run the search collaborator on the unpacked query text, and on
success append a `SearchResult`; a failure of the search call itself is
caught by the per-query try/except and the query is skipped. -/
def searchLoop (oracle : String → Except String (List RawResult)) :
    List QueryEntry → List SearchResult → Except String (List SearchResult)
  | [], acc => .ok acc
  | e :: rest, acc => do
    let (_, query_text) ← unpack2 e
    match oracle query_text with
    | .ok rs => searchLoop oracle rest (acc ++ [{ query := query_text, results := rs }])
    | .error _ => searchLoop oracle rest acc

/-- Embedding of `SearchAgent.search`.  The `oracle` parameter models the
react-agent executor invocation together with `_extract_search_results`
(whose own try/except already turns its failures into `[]`); an uncaught
exception escaping the stage is the `.error` result. -/
def search_stage (oracle : String → Except String (List RawResult))
    (state : ResearchState) : Except String ResearchState := do
  let rs ← searchLoop oracle (queries_to_search state) state.search_results
  .ok { state with search_results := rs }

/-- Embedding of `SummarizerAgent.create_summary`.  The `oracle` parameter is
the outcome of the single external synthesis call (claude.invoke over the
prompt rendered from the query and the verified items): with fewer than 3
verified items the stage returns the state unchanged before any call; with a
failing call the stage's try/except leaves the state unchanged; otherwise the
stripped response is written to `summary` unconditionally — there is no check
that `summary` is still unset. -/
def create_summary (oracle : Except String String) (state : ResearchState) : ResearchState :=
  if state.verified_data.length < 3 then state
  else
    match oracle with
    | .ok r => { state with summary := some (pyStrip r) }
    | .error _ => state

/-- Embedding of `ReportGeneratorAgent.generate_report`.  The `oracle`
parameter is the outcome of the single external generation call: with a falsy
`summary` (None or empty) the stage returns the state unchanged before any
call; with a failing call the try/except leaves the state unchanged;
otherwise the stripped response is written to `report` unconditionally —
there is no check that `report` is still unset. -/
def generate_report (oracle : Except String String) (state : ResearchState) : ResearchState :=
  if pyFalsy state.summary then state
  else
    match oracle with
    | .ok r => { state with report := some (pyStrip r) }
    | .error _ => state

/-- The record returned by the fetch collaborator `browse_website`, as read by
the collector (`browsed_data.get("content", "")`, `.get("title", "")`,
`.get("date")`). -/
structure BrowseData where
  title : String
  content : String
  date : Option String
deriving DecidableEq, Repr

/-- The timestamp expression of `CollectorAgent.collect_data`,
`str(datetime.datime.now())`: the `datetime` module has no attribute
`datime`, so evaluating it raises `AttributeError` on every execution. -/
def collect_timestamp : Except String String :=
  .error "AttributeError: module datetime has no attribute datime"

/-- The body of the per-URL try block of `CollectorAgent.collect_data`: fetch
the page, extract relevant content, evaluate the timestamp, and build the
item; any raised step aborts the item (the exception is caught by the
per-URL except and the item is skipped). -/
def collect_item (fetch : String → Except String BrowseData)
    (extractOracle : String → Except String String)
    (url title : String) : Except String CollectedData := do
  let b ← fetch url
  let content := extract_relevant_content extractOracle b.content
  let ts ← collect_timestamp
  .ok { url := url
        title := pyOr title b.title
        content := content
        date := b.date
        collected_at := ts }

/-- The candidate list of `CollectorAgent.collect_data`: every (url, title)
from all search results whose url is non-empty and not already present in
`collected_data` — note the check is only against the data collected before
the invocation, not against earlier entries of the candidate list itself. -/
def urls_to_collect (state : ResearchState) : List (String × String) :=
  (state.search_results.map fun sr =>
    sr.results.filterMap fun r =>
      if r.url ≠ "" ∧ ¬ state.collected_data.any (fun d => d.url == r.url) then
        some (r.url, r.title)
      else none).flatten

/-- Embedding of `CollectorAgent.collect_data`: shuffle the candidates
(`shuffle` is the randomization collaborator), truncate to 3, and run the
per-URL body on each, appending one item per body that does not raise. -/
def collect_data (shuffle : List (String × String) → List (String × String))
    (fetch : String → Except String BrowseData)
    (extractOracle : String → Except String String)
    (state : ResearchState) : ResearchState :=
  let selected := (shuffle (urls_to_collect state)).take 3
  let newItems := selected.filterMap
    (fun p => (collect_item fetch extractOracle p.1 p.2).toOption)
  { state with collected_data := state.collected_data ++ newItems }

/-- The attribute access `verified_data.url` performed by
`VerifierAgent.verify_data` when filtering: the verified item record has no
`url` attribute (its source url lives at `source.url`), so the access raises
`AttributeError`. -/
def verified_url_attr : VerifiedData → Except String String :=
  fun _ => .error "AttributeError: VerifiedData object has no attribute url"

/-- Model of `any(verified_data.url == collected_data.url for verified_data
in state.verified_data)`: the generator is consumed left to right, raising as
soon as an element's `url` attribute is accessed; over an empty list it is
False without any access. -/
def anyVerifiedUrlEq (verified : List VerifiedData) (url : String) : Except String Bool :=
  match verified with
  | [] => .ok false
  | v :: rest => do
    let u ← verified_url_attr v
    if u == url then .ok true else anyVerifiedUrlEq rest url

/-- The `data_to_verify` selection loop of `VerifierAgent.verify_data`: keep
each collected item not matched by an existing verified entry; the membership
test can raise (see `anyVerifiedUrlEq`), which propagates out of the stage
uncaught. -/
def select_to_verify (verified : List VerifiedData) :
    List CollectedData → Except String (List CollectedData)
  | [] => .ok []
  | cd :: rest => do
    let b ← anyVerifiedUrlEq verified cd.url
    let tail ← select_to_verify verified rest
    .ok (if b then tail else cd :: tail)

/-- The per-item body of `VerifierAgent.verify_data`: score the item via
`verify_content` (which never raises — it has its own try/except with a
`(0.0, "", ...)` fallback) and build the verified record; the body is total,
so every selected item is appended. -/
def verify_item (oracle : String → String → Except String (ℚ × String × String))
    (query : String) (data : CollectedData) : VerifiedData :=
  match verify_content oracle query data.content with
  | (score, vc, notes) =>
    { source := { title := data.title
                  url := data.url
                  content := data.content
                  date := data.date
                  reliability := score }
      verified_content := vc
      reliability_score := score
      verification_notes := notes }

/-- Embedding of `VerifierAgent.verify_data`: select the not-yet-verified
collected items (raising if the filter's attribute access raises), shuffle
and truncate to 3, verify each and append the results. -/
def verify_data (shuffle : List CollectedData → List CollectedData)
    (oracle : String → String → Except String (ℚ × String × String))
    (state : ResearchState) : Except String ResearchState := do
  let pending ← select_to_verify state.verified_data state.collected_data
  let selected := (shuffle pending).take 3
  let newItems := selected.map (verify_item oracle state.query)
  .ok { state with verified_data := state.verified_data ++ newItems }

/-- Embedding of `DirectorAgent.generate_subqueries`: run the external
sub-query generation call (uncaught on failure — the method has no
try/except), split the stripped response into stripped non-empty lines, and
append each line not already among the sub-queries (checked against the
growing list, so within-batch duplicates are also dropped). -/
def generate_subqueries (oracle : Except String String)
    (state : ResearchState) : Except String ResearchState := do
  let r ← oracle
  let newqs := (((pyStrip r).splitOn "\n").map pyStrip).filter (fun q => ¬ q.isEmpty)
  .ok { state with
        sub_queries := newqs.foldl
          (fun acc q => if acc.contains q then acc else acc ++ [q]) state.sub_queries }

/-- Embedding of the loop of the async `run_research_workflow` in
`backend/core/workflow.py`, instrumented with the number of `workflow.arun`
invocations (the second component).  Each pass asks the director for the next
action — `advisory` models the director's external judgment call, whose
response is parsed by `next_step` — breaks on "complete", and otherwise runs
one graph step; the graph execution is an external langgraph call, modelled
as the `arun` collaborator executing one stage.  The loop itself never writes
`status`. -/
def runLoop (advisory : ResearchState → String) (arun : ResearchState → ResearchState) :
    Nat → ResearchState → ResearchState × Nat
  | 0, s => (s, 0)
  | n + 1, s =>
    if (next_step (advisory s)).1 = "complete" then (s, 0)
    else
      let r := runLoop advisory arun n (arun s)
      (r.1, r.2 + 1)

/-- Embedding of the async `run_research_workflow(query, max_iterations)`:
initialize the state via the director and run the bounded loop.  (The module
also defines a second, synchronous function of the same name that shadows
this one and takes no iteration bound; the claim's `maxIterations` parameter
exists only on this async definition.) -/
def run_research_workflow (advisory : ResearchState → String)
    (arun : ResearchState → ResearchState) (query : String)
    (max_iterations : Nat) : ResearchState × Nat :=
  runLoop advisory arun max_iterations (initialize_research query)

theorem runLoop_bound (advisory : ResearchState → String)
    (arun : ResearchState → ResearchState) :
    ∀ (n : Nat) (s : ResearchState), (runLoop advisory arun n s).2 ≤ n := by
  intro n
  induction n with
  | zero => intro s; simp [runLoop]
  | succ k ih =>
    intro s
    unfold runLoop
    split
    · simp
    · simpa using Nat.succ_le_succ (ih (arun s))

theorem runLoop_status (advisory : ResearchState → String)
    (arun : ResearchState → ResearchState)
    (har : ∀ t, (arun t).status = t.status) :
    ∀ (n : Nat) (s : ResearchState), (runLoop advisory arun n s).1.status = s.status := by
  intro n
  induction n with
  | zero => intro s; simp [runLoop]
  | succ k ih =>
    intro s
    unfold runLoop
    split
    · simp
    · simpa using (ih (arun s)).trans (har s)

/-- C1 (amended): for every query, bound N, and Policy Selector behavior
(any advisory response function, including one never yielding "complete"),
the async Run performs at most N stage invocations and returns; but it does
not mark a terminal status — the loop never writes `status`, so whenever the
graph-step collaborator preserves `status` (as every embedded stage does) the
returned state still carries the initial "initialized", not "stopped" or
"completed". -/
theorem run_bounded_no_terminal_status (advisory : ResearchState → String)
    (arun : ResearchState → ResearchState) (query : String) (N : Nat)
    (har : ∀ t, (arun t).status = t.status) :
    (run_research_workflow advisory arun query N).2 ≤ N ∧
    (run_research_workflow advisory arun query N).1.status = "initialized" := by
  refine ⟨runLoop_bound advisory arun N _, ?_⟩
  exact runLoop_status advisory arun har N (initialize_research query)

theorem search_stage_only_results {o : String → Except String (List RawResult)}
    {s s' : ResearchState} (h : search_stage o s = .ok s') :
    ∃ rs, s' = { s with search_results := rs } := by
  unfold search_stage at h
  cases hl : searchLoop o (queries_to_search s) s.search_results with
  | error e => rw [hl] at h; simp [Bind.bind, Except.bind] at h
  | ok rs =>
    rw [hl] at h
    simp only [Bind.bind, Except.bind, Except.ok.injEq] at h
    exact ⟨rs, h.symm⟩

/-- A concrete instantiation of the graph-step collaborator used in the
concrete runs: one step of the search stage with a search provider returning
no results (the error fallback is never reached in these runs). -/
def demo_arun (s : ResearchState) : ResearchState :=
  match search_stage (fun _ => .ok []) s with
  | .ok s' => s'
  | .error _ => s

theorem demo_arun_status (s : ResearchState) : (demo_arun s).status = s.status := by
  unfold demo_arun
  cases h : search_stage (fun _ => .ok ([] : List RawResult)) s with
  | error e => rfl
  | ok s' =>
    obtain ⟨rs, hrs⟩ := search_stage_only_results h
    rw [hrs]

/-- C1 witness: the amended bound-and-status theorem instantiated at the
concrete query "X", bound 2, a selector that never answers "complete", and
the concrete search graph step. -/
theorem run_bounded_no_terminal_status_witness :
    (run_research_workflow (fun _ => "keep going") demo_arun "X" 2).2 ≤ 2 ∧
    (run_research_workflow (fun _ => "keep going") demo_arun "X" 2).1.status = "initialized" :=
  run_bounded_no_terminal_status (fun _ => "keep going") demo_arun "X" 2 demo_arun_status

/-- C1 counterexample: a concrete bounded run — query "X", maxIterations 1,
an advisory source never answering "complete" — returns after exactly one
stage invocation, but its status is still "initialized": the loop sets no
terminal status, contradicting the claim that the bound being reached yields
status "stopped". -/
theorem run_no_stopped_status :
    (run_research_workflow (fun _ => "keep going") demo_arun "X" 1).2 = 1 ∧
    (run_research_workflow (fun _ => "keep going") demo_arun "X" 1).1.status = "initialized" ∧
    "initialized" ≠ "stopped" ∧ "initialized" ≠ "completed" := by
  refine ⟨by decide, by decide, by decide, by decide⟩

/-- A concrete verified item used in the concrete states below. -/
def sampleVerified (u : String) : VerifiedData :=
  { source := { title := "t", url := u, content := "c", date := none, reliability := 1 }
    verified_content := "v"
    reliability_score := 1
    verification_notes := "" }

/-- A concrete state with three verified items and both outputs already set,
as left by a completed Summarize and Report pass. -/
def vstate : ResearchState :=
  { query := "q"
    sub_queries := []
    search_results := []
    collected_data := []
    verified_data := [sampleVerified "u1", sampleVerified "u2", sampleVerified "u3"]
    summary := some "old summary"
    report := some "old report"
    status := "running" }

/-- C2 counterexample: in a state whose summary and report are already
non-empty, re-invoking the Summarize stage (with 3 verified items present)
and the Report-Generation stage overwrites both fields with the new external
responses — re-running is not a no-op. -/
theorem summary_overwrite_counterexample :
    vstate.summary = some "old summary" ∧ vstate.report = some "old report" ∧
    (create_summary (.ok "new summary") vstate).summary = some "new summary" ∧
    (generate_report (.ok "new report") vstate).report = some "new report" := by
  refine ⟨rfl, rfl, by decide, by decide⟩

/-- C2 (amended): `summary` and `report` are not write-once.  A Summarize
invocation with at least 3 verified items whose synthesis call succeeds
writes the stripped response to `summary` unconditionally, and a
Report-Generation invocation with a truthy summary whose generation call
succeeds writes the stripped response to `report` unconditionally, in both
cases overwriting any existing value; the fields are preserved only when the
stage's input check fails or the external call fails. -/
theorem summary_report_overwrite (s : ResearchState) (r r' : String)
    (h3 : 3 ≤ s.verified_data.length) (hs : pyFalsy s.summary = false) :
    (create_summary (.ok r) s).summary = some (pyStrip r) ∧
    (generate_report (.ok r') s).report = some (pyStrip r') := by
  constructor
  · unfold create_summary
    rw [if_neg (by omega)]
  · unfold generate_report
    rw [if_neg (by simp [hs])]

/-- C2 witness: the overwrite theorem instantiated at the concrete state with
both outputs already set. -/
theorem summary_report_overwrite_witness :
    (create_summary (.ok "new summary") vstate).summary = some (pyStrip "new summary") ∧
    (generate_report (.ok "new report") vstate).report = some (pyStrip "new report") :=
  summary_report_overwrite vstate "new summary" "new report" (by decide) (by decide)

/-- C6: invoking Summarize on a state with fewer than 3 verified items, or
Report-Generation on a state whose summary is unset (None or empty), returns
the state unchanged; the result does not depend on the external collaborator
(the oracles are universally quantified), reflecting that the stage returns
before making any external call. -/
theorem precondition_noop (o o' : Except String String) (s t : ResearchState)
    (hs : s.verified_data.length < 3) (ht : pyFalsy t.summary = true) :
    create_summary o s = s ∧ generate_report o' t = t := by
  constructor
  · unfold create_summary
    rw [if_pos hs]
  · unfold generate_report
    rw [if_pos ht]

/-- C6 witness: the no-op theorem instantiated at the freshly initialized
state, which has no verified items and no summary. -/
theorem precondition_noop_witness :
    create_summary (.ok "a") (initialize_research "q") = initialize_research "q" ∧
    generate_report (.ok "b") (initialize_research "q") = initialize_research "q" :=
  precondition_noop (.ok "a") (.ok "b") (initialize_research "q") (initialize_research "q")
    (by decide) (by decide)

/-- A concrete state with one pending sub-query of more than two characters
and no search results yet. -/
def c5state : ResearchState :=
  { query := "root question"
    sub_queries := ["impact of x on y"]
    search_results := []
    collected_data := []
    verified_data := []
    summary := none
    report := none
    status := "running" }

/-- C5 failing-input evaluation: on a state with one not-yet-searched
sub-query, the Search stage raises `ValueError` at the loop header — the
sub-query branch fills `queries_to_search` with bare strings while the loop
unpacks two-tuples — before any search call is made and outside the per-query
try/except, so no `SearchResult` is appended and the stage aborts. -/
theorem search_unpack_valueerror :
    search_stage (fun _ => .ok []) c5state =
      .error "ValueError: not enough values to unpack" ∧
    queries_to_search c5state = [.plain "impact of x on y"] := by
  constructor
  · rfl
  · rfl

theorem collect_item_toOption (fetch : String → Except String BrowseData)
    (ex : String → Except String String) (u t : String) :
    (collect_item fetch ex u t).toOption = none := by
  unfold collect_item
  cases h : fetch u <;>
    simp [h, collect_timestamp, Except.toOption, Bind.bind, Except.bind]

theorem collect_data_noop (shuffle : List (String × String) → List (String × String))
    (fetch : String → Except String BrowseData)
    (ex : String → Except String String) (s : ResearchState) :
    collect_data shuffle fetch ex s = s := by
  unfold collect_data
  have hnil : ((shuffle (urls_to_collect s)).take 3).filterMap
      (fun p => (collect_item fetch ex p.1 p.2).toOption) = [] := by
    rw [List.filterMap_eq_nil_iff]
    intro p _
    exact collect_item_toOption fetch ex p.1 p.2
  simp only [hnil, List.append_nil]

/-- A concrete state with one searched query yielding one result whose URL is
not yet collected. -/
def c7state : ResearchState :=
  { query := "q"
    sub_queries := ["sq"]
    search_results := [{ query := "sq"
                         results := [{ url := "http://a", title := "A", snippet := "s" }] }]
    collected_data := []
    verified_data := []
    summary := none
    report := none
    status := "running" }

/-- C7 failing-input evaluation: with one pending URL and a fetch that
succeeds, the Collect stage still appends nothing — the per-URL body always
raises `AttributeError` when evaluating the `datetime.datime.now()` timestamp
and the per-URL except swallows it as an item failure — and the URL stays in
the pending candidate list afterwards.  (In fact `collect_data` returns every
state unchanged, for every shuffle, fetch and extraction collaborator.) -/
theorem collect_never_appends :
    urls_to_collect c7state = [("http://a", "A")] ∧
    collect_data (fun l => l)
      (fun _ => .ok { title := "T", content := "body", date := none })
      (fun _ => .ok "extracted") c7state = c7state ∧
    (collect_data (fun l => l)
      (fun _ => .ok { title := "T", content := "body", date := none })
      (fun _ => .ok "extracted") c7state).collected_data = [] ∧
    urls_to_collect (collect_data (fun l => l)
      (fun _ => .ok { title := "T", content := "body", date := none })
      (fun _ => .ok "extracted") c7state) = [("http://a", "A")] := by
  refine ⟨rfl, collect_data_noop _ _ _ _, ?_, ?_⟩
  · rw [collect_data_noop]
    rfl
  · rw [collect_data_noop]
    rfl

theorem generate_subqueries_fields {o : Except String String} {s s' : ResearchState}
    (h : generate_subqueries o s = .ok s') :
    s'.collected_data = s.collected_data ∧ s'.verified_data = s.verified_data := by
  cases o with
  | error e => simp [generate_subqueries, Bind.bind, Except.bind] at h
  | ok r =>
    simp only [generate_subqueries, Bind.bind, Except.bind, Except.ok.injEq] at h
    rw [← h]
    exact ⟨rfl, rfl⟩

theorem create_summary_fields (o : Except String String) (s : ResearchState) :
    (create_summary o s).collected_data = s.collected_data ∧
    (create_summary o s).verified_data = s.verified_data := by
  unfold create_summary
  split
  · exact ⟨rfl, rfl⟩
  · cases o <;> exact ⟨rfl, rfl⟩

theorem generate_report_fields (o : Except String String) (s : ResearchState) :
    (generate_report o s).collected_data = s.collected_data ∧
    (generate_report o s).verified_data = s.verified_data := by
  unfold generate_report
  split
  · exact ⟨rfl, rfl⟩
  · cases o <;> exact ⟨rfl, rfl⟩

theorem verify_data_empty_collected {sh : List CollectedData → List CollectedData}
    {o : String → String → Except String (ℚ × String × String)} {s s' : ResearchState}
    (hperm : ∀ l, List.Perm (sh l) l) (hcol : s.collected_data = [])
    (h : verify_data sh o s = .ok s') : s' = s := by
  have hsh : sh [] = [] := (hperm []).eq_nil
  unfold verify_data at h
  rw [hcol] at h
  simp only [select_to_verify, Bind.bind, Except.bind, hsh, List.take_nil, List.map_nil,
    List.append_nil, Except.ok.injEq] at h
  rw [← h, ← hcol]

/-- The states reachable from initialization through stage invocations, for
any queries, external-collaborator behaviors, and shuffles (the shuffle
collaborators are constrained to permutations, the semantics of
`random.shuffle`); the fallible stages contribute a step only when they
return normally. -/
inductive Reachable : ResearchState → Prop where
  | init (q : String) : Reachable (initialize_research q)
  | gen {s s' : ResearchState} (o : Except String String) :
      Reachable s → generate_subqueries o s = .ok s' → Reachable s'
  | search {s s' : ResearchState} (o : String → Except String (List RawResult)) :
      Reachable s → search_stage o s = .ok s' → Reachable s'
  | collect {s : ResearchState} (sh : List (String × String) → List (String × String))
      (f : String → Except String BrowseData) (e : String → Except String String) :
      Reachable s → (∀ l, List.Perm (sh l) l) → Reachable (collect_data sh f e s)
  | verify {s s' : ResearchState} (sh : List CollectedData → List CollectedData)
      (o : String → String → Except String (ℚ × String × String)) :
      Reachable s → (∀ l, List.Perm (sh l) l) → verify_data sh o s = .ok s' → Reachable s'
  | summarize {s : ResearchState} (o : Except String String) :
      Reachable s → Reachable (create_summary o s)
  | report {s : ResearchState} (o : Except String String) :
      Reachable s → Reachable (generate_report o s)

theorem reachable_empty {s : ResearchState} (h : Reachable s) :
    s.collected_data = [] ∧ s.verified_data = [] := by
  induction h with
  | init q => exact ⟨rfl, rfl⟩
  | gen o _ heq ih =>
    obtain ⟨h1, h2⟩ := generate_subqueries_fields heq
    exact ⟨h1.trans ih.1, h2.trans ih.2⟩
  | search o _ heq ih =>
    obtain ⟨rs, hrs⟩ := search_stage_only_results heq
    rw [hrs]
    exact ih
  | collect sh f e _ _ ih =>
    rw [collect_data_noop]
    exact ih
  | verify sh o _ hperm heq ih =>
    rw [verify_data_empty_collected hperm ih.1 heq]
    exact ih
  | summarize o _ ih =>
    obtain ⟨h1, h2⟩ := create_summary_fields o _
    exact ⟨h1.trans ih.1, h2.trans ih.2⟩
  | report o _ ih =>
    obtain ⟨h1, h2⟩ := generate_report_fields o _
    exact ⟨h1.trans ih.1, h2.trans ih.2⟩

/-- C4: in every reachable state, no two collected items share a `url` and no
two verified items share a source url.  The proof goes by induction over the
stage steps; it rests on the fact that in this code no item is ever actually
collected — the collector's per-URL body always raises while timestamping
(see the collector theorems) — so both collections stay empty in every
reachable state and the uniqueness invariants hold vacuously. -/
theorem no_duplicate_urls {s : ResearchState} (h : Reachable s) :
    ((s.collected_data.map fun d => d.url).Nodup) ∧
    ((s.verified_data.map fun v => v.source.url).Nodup) := by
  obtain ⟨h1, h2⟩ := reachable_empty h
  rw [h1, h2]
  exact ⟨List.nodup_nil, List.nodup_nil⟩

/-- C4 witness: the invariant instantiated at the freshly initialized state. -/
theorem no_duplicate_urls_witness :
    (((initialize_research "X").collected_data.map fun d => d.url).Nodup) ∧
    (((initialize_research "X").verified_data.map fun v => v.source.url).Nodup) :=
  no_duplicate_urls (Reachable.init "X")

/-- A concrete page content of 20000 characters, exceeding both budgets. -/
def longContent : String := String.mk (List.replicate 20000 'a')

theorem longContent_len : pyLen longContent = 20000 := by
  show (String.mk (List.replicate 20000 'a')).toList.length = 20000
  rw [show (String.mk (List.replicate 20000 'a')).toList = List.replicate 20000 'a' from rfl]
  exact List.length_replicate 20000 'a'

/-- C10 witness: the truncation theorem instantiated at a concrete content of
20000 characters, whose submissions are cut to the two fixed budgets. -/
theorem submitted_truncation_witness :
    pyLen longContent > 15000 ∧ collect_submitted longContent = pySlice longContent 15000 ∧
    pyLen longContent > 10000 ∧ verify_submitted longContent = pySlice longContent 10000 := by
  have h15 : pyLen longContent > 15000 := by rw [longContent_len]; norm_num
  have h10 : pyLen longContent > 10000 := by rw [longContent_len]; norm_num
  obtain ⟨-, -, h1, -, -, h2, -, -⟩ := submitted_truncation longContent "q"
  exact ⟨h15, h1 h15, h10, h2 h10⟩
